import Mathlib

/-
  Verification of the SceneManager core (Project7/Source/SceneManager.cpp):
  texture registry, material registry, transform pipeline, shader-state
  binder and the fixed scene-construction sequence.

  The registries live in fields of the SceneManager class (declared in
  SceneManager.h, which is not part of the sources at hand).  Following the
  data model of the design document, the texture registry
  (m_textureIDs[..] together with the m_loadedTextures counter) is embedded
  as the ordered list of its live entries, insertion order giving the slot
  index, and the material registry (m_objectMaterials) as an ordered list.
-/

namespace SceneManager

/-- One entry of the texture registry: mirrors TEXTURE_INFO used by
SceneManager.cpp, fields .ID (a GLuint, embedded as Nat) and .tag. -/
structure TEXTURE_INFO where
  ID : Nat
  tag : String
deriving DecidableEq, Repr

/-- Decoded image data as produced by stbi_load: width, height and number
of color channels (C ints). -/
structure Image where
  width : Int
  height : Int
  colorChannels : Int
deriving DecidableEq, Repr

/-- The C++ assignment of a GLuint (unsigned 32-bit) to an int:
two's-complement conversion. -/
def glUintToInt (u : Nat) : Int :=
  if u % 4294967296 < 2147483648 then ((u % 4294967296 : Nat) : Int)
  else ((u % 4294967296 : Nat) : Int) - 4294967296

/-- SceneManager::CreateGLTexture.  The image decode (stbi_load) and the GL
texture-object creation are external; they enter as the decoded image
(`none` models a decode failure) and the id produced by glGenTextures.
The function checks the channel count: only 3 (RGB) and 4 (RGBA) are
uploaded; any other count returns false before the registration step.  On
success it registers the texture at index m_loadedTextures (the end of the
live-entry list) and increments the counter, i.e. appends the entry. -/
def CreateGLTexture (decoded : Option Image) (textureID : Nat) (tag : String)
    (regs : List TEXTURE_INFO) : Bool × List TEXTURE_INFO :=
  match decoded with
  | some image =>
    if image.colorChannels = 3 ∨ image.colorChannels = 4 then
      (true, regs ++ [⟨textureID, tag⟩])
    else
      (false, regs)
  | none => (false, regs)

/-- GL calls issued by the texture registry (the effect trace at the GL
boundary). `activeTexture u` stands for glActiveTexture(GL_TEXTURE0 + u). -/
inductive GLCmd where
  | genTextures (n : Nat)
  | deleteTextures (ids : List Nat)
  | activeTexture (unit : Nat)
  | bindTexture2D (id : Nat)
deriving DecidableEq, Repr

/-- The loop body of SceneManager::BindGLTextures, carrying the loop
index i: for each live entry, glActiveTexture(GL_TEXTURE0 + i) then
glBindTexture(GL_TEXTURE_2D, m_textureIDs[i].ID). -/
def BindGLTexturesAux : List TEXTURE_INFO → Nat → List GLCmd
  | [], _ => []
  | e :: rest, i =>
      GLCmd.activeTexture i :: GLCmd.bindTexture2D e.ID :: BindGLTexturesAux rest (i + 1)

/-- SceneManager::BindGLTextures: iterates i from 0 to m_loadedTextures-1. -/
def BindGLTextures (regs : List TEXTURE_INFO) : List GLCmd :=
  BindGLTexturesAux regs 0

/-- The texture units activated by a GL command trace, in order. -/
def activeUnits (cmds : List GLCmd) : List Nat :=
  cmds.filterMap fun c =>
    match c with
    | GLCmd.activeTexture u => some u
    | _ => none

/-- The loop body of SceneManager::DestroyGLTextures, carrying the loop
index.  As written, the loop performs glGenTextures(1, &m_textureIDs[i].ID)
on each entry — it generates a fresh texture name into the entry (gen i is
the name the GL returns for the i-th call) and never deletes anything. -/
def DestroyGLTexturesAux (gen : Nat → Nat) :
    List TEXTURE_INFO → Nat → List GLCmd × List TEXTURE_INFO
  | [], _ => ([], [])
  | e :: rest, i =>
      let r := DestroyGLTexturesAux gen rest (i + 1)
      (GLCmd.genTextures 1 :: r.1, { e with ID := gen i } :: r.2)

/-- SceneManager::DestroyGLTextures: returns the GL call trace and the
registry entries after the loop. -/
def DestroyGLTextures (gen : Nat → Nat) (regs : List TEXTURE_INFO) :
    List GLCmd × List TEXTURE_INFO :=
  DestroyGLTexturesAux gen regs 0

/-- SceneManager::FindTextureID: first-match linear scan over the live
entries; on a hit the GLuint ID is assigned to the int result, on a miss
the initial value -1 is returned. -/
def FindTextureID (regs : List TEXTURE_INFO) (tag : String) : Int :=
  match regs with
  | [] => -1
  | e :: rest => if e.tag = tag then glUintToInt e.ID else FindTextureID rest tag

/-- The scan of SceneManager::FindTextureSlot with the running index made
explicit (the C++ walks an index from 0 over m_textureIDs). -/
def FindTextureSlotAux (regs : List TEXTURE_INFO) (tag : String) (index : Nat) : Int :=
  match regs with
  | [] => -1
  | e :: rest =>
      if e.tag = tag then (index : Int) else FindTextureSlotAux rest tag (index + 1)

/-- SceneManager::FindTextureSlot: first-match linear scan returning the
index of the matching entry, -1 on a miss. -/
def FindTextureSlot (regs : List TEXTURE_INFO) (tag : String) : Int :=
  FindTextureSlotAux regs tag 0

/-- glm::vec3 (float components embedded as reals). -/
structure Vec3 where
  x : ℝ
  y : ℝ
  z : ℝ

/-- glm::vec4 as used for the flat object color (r,g,b,a). -/
structure Vec4 where
  r : ℝ
  g : ℝ
  b : ℝ
  a : ℝ

/-- glm::mat4 embedded with mathematical row/column indexing: field mRC is
the entry at row R, column C, i.e. the glm component m[C][R] (glm stores
matrices column-major; glm's m[c] is the c-th column). -/
structure Mat4 where
  m00 : ℝ
  m01 : ℝ
  m02 : ℝ
  m03 : ℝ
  m10 : ℝ
  m11 : ℝ
  m12 : ℝ
  m13 : ℝ
  m20 : ℝ
  m21 : ℝ
  m22 : ℝ
  m23 : ℝ
  m30 : ℝ
  m31 : ℝ
  m32 : ℝ
  m33 : ℝ

/-- glm matrix product (operator* on mat4): standard mathematical matrix
multiplication under the row/column reading of Mat4. -/
def Mat4.mul (A B : Mat4) : Mat4 :=
  ⟨A.m00 * B.m00 + A.m01 * B.m10 + A.m02 * B.m20 + A.m03 * B.m30,
   A.m00 * B.m01 + A.m01 * B.m11 + A.m02 * B.m21 + A.m03 * B.m31,
   A.m00 * B.m02 + A.m01 * B.m12 + A.m02 * B.m22 + A.m03 * B.m32,
   A.m00 * B.m03 + A.m01 * B.m13 + A.m02 * B.m23 + A.m03 * B.m33,
   A.m10 * B.m00 + A.m11 * B.m10 + A.m12 * B.m20 + A.m13 * B.m30,
   A.m10 * B.m01 + A.m11 * B.m11 + A.m12 * B.m21 + A.m13 * B.m31,
   A.m10 * B.m02 + A.m11 * B.m12 + A.m12 * B.m22 + A.m13 * B.m32,
   A.m10 * B.m03 + A.m11 * B.m13 + A.m12 * B.m23 + A.m13 * B.m33,
   A.m20 * B.m00 + A.m21 * B.m10 + A.m22 * B.m20 + A.m23 * B.m30,
   A.m20 * B.m01 + A.m21 * B.m11 + A.m22 * B.m21 + A.m23 * B.m31,
   A.m20 * B.m02 + A.m21 * B.m12 + A.m22 * B.m22 + A.m23 * B.m32,
   A.m20 * B.m03 + A.m21 * B.m13 + A.m22 * B.m23 + A.m23 * B.m33,
   A.m30 * B.m00 + A.m31 * B.m10 + A.m32 * B.m20 + A.m33 * B.m30,
   A.m30 * B.m01 + A.m31 * B.m11 + A.m32 * B.m21 + A.m33 * B.m31,
   A.m30 * B.m02 + A.m31 * B.m12 + A.m32 * B.m22 + A.m33 * B.m32,
   A.m30 * B.m03 + A.m31 * B.m13 + A.m32 * B.m23 + A.m33 * B.m33⟩

instance : Mul Mat4 := ⟨Mat4.mul⟩

/-- The 4x4 identity matrix (glm::mat4(1.0f)). -/
def Mat4.identity : Mat4 :=
  ⟨1, 0, 0, 0,
   0, 1, 0, 0,
   0, 0, 1, 0,
   0, 0, 0, 1⟩

/-- glm::radians: degrees to radians (glm multiplies by the constant
0.01745329251994329576923690768489, i.e. pi/180). -/
noncomputable def glm_radians (degrees : ℝ) : ℝ := degrees * (Real.pi / 180)

/-- glm::normalize on vec3: v divided by its euclidean length. -/
noncomputable def glm_normalize (v : Vec3) : Vec3 :=
  let len := Real.sqrt (v.x * v.x + v.y * v.y + v.z * v.z)
  ⟨v.x / len, v.y / len, v.z / len⟩

/-- glm::scale(v) (gtx/transform free function): scale(mat4(1), v),
the diagonal scaling matrix. -/
def glm_scale (v : Vec3) : Mat4 :=
  ⟨v.x, 0, 0, 0,
   0, v.y, 0, 0,
   0, 0, v.z, 0,
   0, 0, 0, 1⟩

/-- glm::translate(v) (gtx/transform free function): translate(mat4(1), v),
identity with v in the last column. -/
def glm_translate (v : Vec3) : Mat4 :=
  ⟨1, 0, 0, v.x,
   0, 1, 0, v.y,
   0, 0, 1, v.z,
   0, 0, 0, 1⟩

/-- glm::rotate(angle, v) (gtx/transform free function):
rotate(mat4(1), angle, v).  glm normalizes the axis, forms
temp = (1 - cos a) * axis and fills the rotation columns
(Rotate[0] = (c + temp.x*axis.x, temp.x*axis.y + s*axis.z,
temp.x*axis.z - s*axis.y), etc.); applied to the identity this is the
matrix below, transcribed to row/column fields. -/
noncomputable def glm_rotate (angle : ℝ) (v : Vec3) : Mat4 :=
  let c := Real.cos angle
  let s := Real.sin angle
  let axis := glm_normalize v
  let tx := (1 - c) * axis.x
  let ty := (1 - c) * axis.y
  let tz := (1 - c) * axis.z
  ⟨c + tx * axis.x, ty * axis.x - s * axis.z, tz * axis.x + s * axis.y, 0,
   tx * axis.y + s * axis.z, c + ty * axis.y, tz * axis.y - s * axis.x, 0,
   tx * axis.z - s * axis.y, ty * axis.z + s * axis.x, c + tz * axis.z, 0,
   0, 0, 0, 1⟩

/-- The model matrix computed inside SceneManager::SetTransformations:
scale, per-axis rotations (degrees converted to radians, axes (1,0,0),
(0,1,0), (0,0,1)) and translation, composed as
translation * rotationX * rotationY * rotationZ * scale. -/
noncomputable def composeModel (scaleXYZ : Vec3) (XrotationDegrees YrotationDegrees ZrotationDegrees : ℝ)
    (positionXYZ : Vec3) : Mat4 :=
  let scale := glm_scale scaleXYZ
  let rotationX := glm_rotate (glm_radians XrotationDegrees) ⟨1, 0, 0⟩
  let rotationY := glm_rotate (glm_radians YrotationDegrees) ⟨0, 1, 0⟩
  let rotationZ := glm_rotate (glm_radians ZrotationDegrees) ⟨0, 0, 1⟩
  let translation := glm_translate positionXYZ
  translation * rotationX * rotationY * rotationZ * scale

/-- OBJECT_MATERIAL: tag plus the shading preset fields pushed to the
shader (SceneManager.h data model; fields as read and written by
SceneManager.cpp). -/
structure OBJECT_MATERIAL where
  ambientColor : Vec3
  ambientStrength : ℝ
  diffuseColor : Vec3
  specularColor : Vec3
  shininess : ℝ
  tag : String

/-- The while loop of SceneManager::FindMaterial: first-match scan; on a
hit the five shading fields (not the tag) are copied into the output
parameter and the loop stops; on a miss the output parameter is left as
it was. -/
def FindMaterialLoop (mats : List OBJECT_MATERIAL) (tag : String)
    (material : OBJECT_MATERIAL) : OBJECT_MATERIAL :=
  match mats with
  | [] => material
  | m :: rest =>
      if m.tag = tag then
        { material with
            ambientColor := m.ambientColor
            ambientStrength := m.ambientStrength
            diffuseColor := m.diffuseColor
            specularColor := m.specularColor
            shininess := m.shininess }
      else FindMaterialLoop rest tag material

/-- SceneManager::FindMaterial: returns false when the material list is
empty; otherwise runs the scan and returns true — as written, the final
return is the constant true, not the loop's bFound flag. -/
def FindMaterial (mats : List OBJECT_MATERIAL) (tag : String)
    (material : OBJECT_MATERIAL) : Bool × OBJECT_MATERIAL :=
  if mats.length = 0 then (false, material)
  else (true, FindMaterialLoop mats tag material)

/-- A value pushed to the shader boundary (ShaderManager set*Value calls)
or a draw call on the shape meshes, in emission order. -/
inductive Cmd where
  | setMat4 (name : String) (value : Mat4)
  | setInt (name : String) (value : Int)
  | setVec4 (name : String) (value : Vec4)
  | setVec3 (name : String) (value : Vec3)
  | setFloat (name : String) (value : ℝ)
  | setVec2 (name : String) (u v : ℝ)
  | setSampler2D (name : String) (value : Int)
  | drawBox
  | drawCylinder
  | drawSphere
  | drawTorus
  | drawCone
  | drawPlane

/-- The uniform name constants of SceneManager.cpp. -/
def g_ModelName : String := "model"

def g_ColorValueName : String := "objectColor"

def g_TextureValueName : String := "objectTexture"

def g_UseTextureName : String := "bUseTexture"

/-- The SceneManager state read by the render path: the material catalog
(m_objectMaterials), the texture registry (m_textureIDs live entries) and
whether m_pShaderManager is non-null. -/
structure SceneState where
  m_objectMaterials : List OBJECT_MATERIAL
  m_textureIDs : List TEXTURE_INFO
  hasShader : Bool

/-- Models the stack local `OBJECT_MATERIAL material;` of
SceneManager::SetShaderMaterial: default-initialized, its numeric fields
carry no meaningful value (the code never writes them before a hit).
Embedded as a fixed arbitrary value. -/
def uninitMaterial : OBJECT_MATERIAL :=
  ⟨⟨0, 0, 0⟩, 0, ⟨0, 0, 0⟩, ⟨0, 0, 0⟩, 0, ""⟩

/-- SceneManager::SetTransformations: builds the model matrix
(composeModel) and, when the shader manager is present, submits it once
as the "model" uniform. -/
noncomputable def SetTransformations (s : SceneState) (scaleXYZ : Vec3)
    (XrotationDegrees YrotationDegrees ZrotationDegrees : ℝ)
    (positionXYZ : Vec3) : SceneState × List Cmd :=
  (s, if s.hasShader then
        [Cmd.setMat4 g_ModelName
          (composeModel scaleXYZ XrotationDegrees YrotationDegrees ZrotationDegrees
            positionXYZ)]
      else [])

/-- SceneManager::SetShaderColor: when the shader manager is present,
sets the bUseTexture int uniform to false (0) and pushes the RGBA color. -/
def SetShaderColor (s : SceneState)
    (redColorValue greenColorValue blueColorValue alphaValue : ℝ) :
    SceneState × List Cmd :=
  (s, if s.hasShader then
        [Cmd.setInt g_UseTextureName 0,
         Cmd.setVec4 g_ColorValueName
           ⟨redColorValue, greenColorValue, blueColorValue, alphaValue⟩]
      else [])

/-- SceneManager::SetShaderTexture: when the shader manager is present,
sets bUseTexture to true (1) and pushes FindTextureSlot(tag) — possibly
the sentinel -1 — as the sampler uniform. -/
def SetShaderTexture (s : SceneState) (textureTag : String) :
    SceneState × List Cmd :=
  (s, if s.hasShader then
        [Cmd.setInt g_UseTextureName 1,
         Cmd.setSampler2D g_TextureValueName (FindTextureSlot s.m_textureIDs textureTag)]
      else [])

/-- SceneManager::SetTextureUVScale: when the shader manager is present,
pushes the "UVscale" vec2 uniform. -/
def SetTextureUVScale (s : SceneState) (u v : ℝ) : SceneState × List Cmd :=
  (s, if s.hasShader then [Cmd.setVec2 "UVscale" u v] else [])

/-- SceneManager::SetShaderMaterial: when the catalog is nonempty, runs
FindMaterial on a default-initialized local and, if it returned true,
pushes the five material uniforms from that local (the source does not
null-check m_pShaderManager here). -/
def SetShaderMaterial (s : SceneState) (materialTag : String) :
    SceneState × List Cmd :=
  (s, if s.m_objectMaterials.length > 0 then
        let r := FindMaterial s.m_objectMaterials materialTag uninitMaterial
        if r.1 then
          [Cmd.setVec3 "material.ambientColor" r.2.ambientColor,
           Cmd.setFloat "material.ambientStrength" r.2.ambientStrength,
           Cmd.setVec3 "material.diffuseColor" r.2.diffuseColor,
           Cmd.setVec3 "material.specularColor" r.2.specularColor,
           Cmd.setFloat "material.shininess" r.2.shininess]
        else []
      else [])

/-- m_basicMeshes drawing operations (ShapeMeshes is external): each draw
emits one draw command and leaves the state alone. -/
def DrawBoxMesh (s : SceneState) : SceneState × List Cmd := (s, [Cmd.drawBox])

def DrawCylinderMesh (s : SceneState) : SceneState × List Cmd := (s, [Cmd.drawCylinder])

def DrawSphereMesh (s : SceneState) : SceneState × List Cmd := (s, [Cmd.drawSphere])

def DrawTorusMesh (s : SceneState) : SceneState × List Cmd := (s, [Cmd.drawTorus])

def DrawConeMesh (s : SceneState) : SceneState × List Cmd := (s, [Cmd.drawCone])

def DrawPlaneMesh (s : SceneState) : SceneState × List Cmd := (s, [Cmd.drawPlane])

/-- The "plastic" preset of SceneManager::DefineObjectMaterials. -/
def plasticMaterial : OBJECT_MATERIAL :=
  { ambientColor := ⟨0.1, 0.1, 0.1⟩
    ambientStrength := 0.3
    diffuseColor := ⟨0.2, 0.2, 0.2⟩
    specularColor := ⟨0.5, 0.5, 0.5⟩
    shininess := 6.0
    tag := "plastic" }

/-- The "wood" preset of SceneManager::DefineObjectMaterials. -/
def woodMaterial : OBJECT_MATERIAL :=
  { ambientColor := ⟨0.2, 0.2, 0.2⟩
    ambientStrength := 0.3
    diffuseColor := ⟨0.2, 0.2, 0.2⟩
    specularColor := ⟨0.5, 0.5, 0.5⟩
    shininess := 0.0
    tag := "wood" }

/-- The "glass" preset of SceneManager::DefineObjectMaterials. -/
def glassMaterial : OBJECT_MATERIAL :=
  { ambientColor := ⟨0.2, 0.2, 0.2⟩
    ambientStrength := 0.3
    diffuseColor := ⟨0.2, 0.2, 0.2⟩
    specularColor := ⟨0.5, 0.5, 0.5⟩
    shininess := 8.0
    tag := "glass" }

/-- SceneManager::DefineObjectMaterials: pushes the plastic, wood and
glass presets onto m_objectMaterials, in that order. -/
def DefineObjectMaterials (s : SceneState) : SceneState :=
  { s with m_objectMaterials :=
      s.m_objectMaterials ++ [plasticMaterial, woodMaterial, glassMaterial] }

/-- SceneManager::createDesktop: the four box draws of the desk
surface/monitor object, with the transform and shader-state calls in
source order. -/
noncomputable def createDesktop (s : SceneState) : SceneState × List Cmd :=
  let r1 := SetTransformations s ⟨1.6, 1.8, 0.2⟩ 0 0 0 ⟨-1.4, 1.0, 3.2⟩
  let r2 := SetShaderColor r1.1 0.18 0.19 0.19 1.0
  let r3 := SetShaderMaterial r2.1 "plastic"
  let r4 := DrawBoxMesh r3.1
  let r5 := SetTransformations r4.1 ⟨5.6, 3.4, 0.2⟩ (-20) 0 0 ⟨-1.4, 3.0, 3.0⟩
  let r6 := SetShaderColor r5.1 0.18 0.19 0.19 1.0
  let r7 := SetShaderMaterial r6.1 "plastic"
  let r8 := DrawBoxMesh r7.1
  let r9 := SetTransformations r8.1 ⟨4.0, 1.8, 0.1⟩ 90 0 0 ⟨-1.4, 0.0, 3.0⟩
  let r10 := SetShaderMaterial r9.1 "plastic"
  let r11 := SetShaderColor r10.1 0.18 0.19 0.19 1.0
  let r12 := DrawBoxMesh r11.1
  let r13 := SetTransformations r12.1 ⟨5.2, 3.2, 0.02⟩ (-20) 0 0 ⟨-1.4, 3.05, 3.13⟩
  let r14 := SetShaderColor r13.1 0.64 0.24 0.89 1.0
  let r15 := SetShaderTexture r14.1 "monitor"
  let r16 := SetShaderMaterial r15.1 "glass"
  let r17 := DrawBoxMesh r16.1
  (r17.1,
   r1.2 ++ r2.2 ++ r3.2 ++ r4.2 ++ r5.2 ++ r6.2 ++ r7.2 ++ r8.2 ++ r9.2 ++
     r10.2 ++ r11.2 ++ r12.2 ++ r13.2 ++ r14.2 ++ r15.2 ++ r16.2 ++ r17.2)

/-- SceneManager::createPaperTowel: cylinder roll plus the small sphere. -/
noncomputable def createPaperTowel (s : SceneState) : SceneState × List Cmd :=
  let r1 := SetTransformations s ⟨1.0, 2.3, 1.0⟩ 0 0 0 ⟨5.4, 0.01, 1.8⟩
  let r2 := SetShaderColor r1.1 0.18 0.19 0.19 1.0
  let r3 := SetShaderTexture r2.1 "paperTowel"
  let r4 := SetShaderMaterial r3.1 "plastic"
  let r5 := DrawCylinderMesh r4.1
  let r6 := SetTransformations r5.1 ⟨0.25, 0.01, 0.25⟩ 0 0 4 ⟨5.4, 2.34, 1.8⟩
  let r7 := SetShaderColor r6.1 0.28 0.23 0.15 1.0
  let r8 := DrawSphereMesh r7.1
  (r8.1, r1.2 ++ r2.2 ++ r3.2 ++ r4.2 ++ r5.2 ++ r6.2 ++ r7.2 ++ r8.2)

/-- SceneManager::createFlowerPot: two cylinders, a sphere and two cones. -/
noncomputable def createFlowerPot (s : SceneState) : SceneState × List Cmd :=
  let r1 := SetTransformations s ⟨0.15, 0.4, 0.15⟩ 0 0 0 ⟨-6.9, 2.0, 1.2⟩
  let r2 := SetShaderColor r1.1 0.18 0.19 0.19 1.0
  let r3 := SetShaderTexture r2.1 "vase"
  let r4 := SetShaderMaterial r3.1 "glass"
  let r5 := DrawCylinderMesh r4.1
  let r6 := SetTransformations r5.1 ⟨0.13, 0.01, 0.13⟩ 0 0 0 ⟨-6.9, 2.4, 1.2⟩
  let r7 := SetShaderColor r6.1 0.0 0.0 0.0 1.0
  let r8 := DrawCylinderMesh r7.1
  let r9 := SetTransformations r8.1 ⟨0.7, 0.9, 0.5⟩ 0 0 0 ⟨-6.9, 1.0, 1.2⟩
  let r10 := SetShaderColor r9.1 0.18 0.19 0.19 1.0
  let r11 := SetShaderMaterial r10.1 "glass"
  let r12 := SetShaderTexture r11.1 "vase"
  let r13 := DrawSphereMesh r12.1
  let r14 := SetTransformations r13.1 ⟨0.40, 0.7, 0.40⟩ 0 0 0 ⟨-6.9, 1.5, 1.2⟩
  let r15 := SetShaderColor r14.1 0.18 0.19 0.19 1.0
  let r16 := SetShaderMaterial r15.1 "glass"
  let r17 := SetShaderTexture r16.1 "vase"
  let r18 := DrawConeMesh r17.1
  let r19 := SetTransformations r18.1 ⟨0.55, 0.7, 0.5⟩ 0 0 0 ⟨-6.9, 0.0, 1.2⟩
  let r20 := SetShaderColor r19.1 0.18 0.19 0.19 1.0
  let r21 := SetShaderTexture r20.1 "vase"
  let r22 := SetShaderMaterial r21.1 "plastic"
  let r23 := DrawConeMesh r22.1
  (r23.1,
   r1.2 ++ r2.2 ++ r3.2 ++ r4.2 ++ r5.2 ++ r6.2 ++ r7.2 ++ r8.2 ++ r9.2 ++
     r10.2 ++ r11.2 ++ r12.2 ++ r13.2 ++ r14.2 ++ r15.2 ++ r16.2 ++ r17.2 ++
     r18.2 ++ r19.2 ++ r20.2 ++ r21.2 ++ r22.2 ++ r23.2)

/-- SceneManager::createCoffeeMug: torus handle, sphere and cylinder body. -/
noncomputable def createCoffeeMug (s : SceneState) : SceneState × List Cmd :=
  let r1 := SetTransformations s ⟨0.6, 0.32, 0.0⟩ 0 0 0 ⟨3.4, 0.6, 3.0⟩
  let r2 := SetShaderColor r1.1 0.0 0.48 0.89 1.0
  let r3 := SetShaderMaterial r2.1 "glass"
  let r4 := DrawTorusMesh r3.1
  let r5 := SetTransformations r4.1 ⟨0.48, 0.12, 0.48⟩ 0 0 4 ⟨2.9, 1.14, 3.0⟩
  let r6 := SetShaderColor r5.1 0.0 0.18 0.50 1.0
  let r7 := DrawSphereMesh r6.1
  let r8 := SetTransformations r7.1 ⟨0.5, 1.2, 0.5⟩ 0 0 4 ⟨3.0, 0.0, 3.0⟩
  let r9 := SetShaderColor r8.1 0.0 0.48 0.89 1.0
  let r10 := SetShaderMaterial r9.1 "glass"
  let r11 := DrawCylinderMesh r10.1
  (r11.1,
   r1.2 ++ r2.2 ++ r3.2 ++ r4.2 ++ r5.2 ++ r6.2 ++ r7.2 ++ r8.2 ++ r9.2 ++
     r10.2 ++ r11.2)

/-- SceneManager::createTable: the single textured box. -/
noncomputable def createTable (s : SceneState) : SceneState × List Cmd :=
  let r1 := SetTransformations s ⟨20.0, 0.2, 10.0⟩ 0 0 0 ⟨0.0, -0.1, 0.0⟩
  let r2 := SetShaderTexture r1.1 "table"
  let r3 := SetShaderMaterial r2.1 "wood"
  let r4 := DrawBoxMesh r3.1
  (r4.1, r1.2 ++ r2.2 ++ r3.2 ++ r4.2)

/-- SceneManager::createWall: the single textured plane. -/
noncomputable def createWall (s : SceneState) : SceneState × List Cmd :=
  let r1 := SetTransformations s ⟨10.0, 2.0, 5.0⟩ 90 0 0 ⟨0.0, 5.0, -5.0⟩
  let r2 := SetShaderTexture r1.1 "wall"
  let r3 := SetShaderMaterial r2.1 "wood"
  let r4 := DrawPlaneMesh r3.1
  (r4.1, r1.2 ++ r2.2 ++ r3.2 ++ r4.2)

/-- SceneManager::RenderScene: the fixed builder sequence — coffee mug,
desktop, table, paper towel, flower pot, wall — emitting their commands in
order. -/
noncomputable def RenderScene (s : SceneState) : SceneState × List Cmd :=
  let r1 := createCoffeeMug s
  let r2 := createDesktop r1.1
  let r3 := createTable r2.1
  let r4 := createPaperTowel r3.1
  let r5 := createFlowerPot r4.1
  let r6 := createWall r5.1
  (r6.1, r1.2 ++ r2.2 ++ r3.2 ++ r4.2 ++ r5.2 ++ r6.2)

/-- The scale matrix of the design document: diagonal (sx, sy, sz, 1). -/
def specScale (sx sy sz : ℝ) : Mat4 :=
  ⟨sx, 0, 0, 0,
   0, sy, 0, 0,
   0, 0, sz, 0,
   0, 0, 0, 1⟩

/-- The rotation-about-x matrix of the design document. -/
noncomputable def specRotationX (t : ℝ) : Mat4 :=
  ⟨1, 0, 0, 0,
   0, Real.cos t, -Real.sin t, 0,
   0, Real.sin t, Real.cos t, 0,
   0, 0, 0, 1⟩

/-- The rotation-about-y matrix of the design document. -/
noncomputable def specRotationY (t : ℝ) : Mat4 :=
  ⟨Real.cos t, 0, Real.sin t, 0,
   0, 1, 0, 0,
   -Real.sin t, 0, Real.cos t, 0,
   0, 0, 0, 1⟩

/-- The rotation-about-z matrix of the design document. -/
noncomputable def specRotationZ (t : ℝ) : Mat4 :=
  ⟨Real.cos t, -Real.sin t, 0, 0,
   Real.sin t, Real.cos t, 0, 0,
   0, 0, 1, 0,
   0, 0, 0, 1⟩

/-- The pure translation matrix of the design document: identity with
offsets (tx, ty, tz) in the last column and no shear. -/
def specTranslation (tx ty tz : ℝ) : Mat4 :=
  ⟨1, 0, 0, tx,
   0, 1, 0, ty,
   0, 0, 1, tz,
   0, 0, 0, 1⟩

/-- A concrete 3-channel decoded image, for instantiating the claims. -/
def img3 : Image := ⟨64, 64, 3⟩

/-- The registry after seventeen successful registrations (3-channel
decodes, ids 1..17, distinct tags): CreateGLTexture checks no capacity,
so every call appends. -/
def regs17 : List TEXTURE_INFO :=
  (List.range 17).foldl
    (fun rs i => (CreateGLTexture (some img3) (i + 1) (toString i) rs).2) []

/-- The scene state right after DefineObjectMaterials has populated the
seed catalog (plastic, wood, glass) on an empty manager. -/
def seedState : SceneState :=
  DefineObjectMaterials ⟨[], [], true⟩

theorem Mat4.mul_def (A B : Mat4) : A * B = Mat4.mul A B := rfl

theorem glUintToInt_small (u : Nat) (h : u < 2147483648) : glUintToInt u = (u : Int) := by
  have h32 : u % 4294967296 = u := Nat.mod_eq_of_lt (by omega)
  simp [glUintToInt, h32, h]

theorem FindTextureSlotAux_not_found (regs : List TEXTURE_INFO) (tag : String)
    (h : ∀ e ∈ regs, e.tag ≠ tag) : ∀ k, FindTextureSlotAux regs tag k = -1 := by
  induction regs with
  | nil => intro k; rfl
  | cons e rest ih =>
      intro k
      have he : e.tag ≠ tag := h e (List.mem_cons_self e rest)
      simp only [FindTextureSlotAux, if_neg he]
      exact ih (fun x hx => h x (List.mem_cons_of_mem e hx)) (k + 1)

theorem FindTextureID_not_found (regs : List TEXTURE_INFO) (tag : String)
    (h : ∀ e ∈ regs, e.tag ≠ tag) : FindTextureID regs tag = -1 := by
  induction regs with
  | nil => rfl
  | cons e rest ih =>
      have he : e.tag ≠ tag := h e (List.mem_cons_self e rest)
      simp only [FindTextureID, if_neg he]
      exact ih fun x hx => h x (List.mem_cons_of_mem e hx)

/-- Claim C8: for every tag never registered in the texture registry,
FindTextureSlot and FindTextureID both return the sentinel -1. -/
theorem unregistered_tag_lookups_return_sentinel (regs : List TEXTURE_INFO)
    (tag : String) (h : ∀ e ∈ regs, e.tag ≠ tag) :
    FindTextureSlot regs tag = -1 ∧ FindTextureID regs tag = -1 :=
  ⟨FindTextureSlotAux_not_found regs tag h 0, FindTextureID_not_found regs tag h⟩

theorem unregistered_tag_lookups_return_sentinel_witness :
    (∀ e ∈ [TEXTURE_INFO.mk 5 "monitor"], e.tag ≠ "wall") ∧
    FindTextureSlot [TEXTURE_INFO.mk 5 "monitor"] "wall" = -1 ∧
    FindTextureID [TEXTURE_INFO.mk 5 "monitor"] "wall" = -1 :=
  ⟨by decide, unregistered_tag_lookups_return_sentinel _ _ (by decide)⟩

/-- Claim C7: for every decoded image whose channel count is neither 3
nor 4, CreateGLTexture returns false, the registry is unchanged, and a
tag that was not previously registered stays unresolved (both lookups
return the sentinel -1). -/
theorem createGLTexture_bad_channel_count (img : Image) (textureID : Nat)
    (tag : String) (regs : List TEXTURE_INFO)
    (h3 : img.colorChannels ≠ 3) (h4 : img.colorChannels ≠ 4) :
    (CreateGLTexture (some img) textureID tag regs).1 = false ∧
    (CreateGLTexture (some img) textureID tag regs).2 = regs ∧
    ((∀ e ∈ regs, e.tag ≠ tag) →
      FindTextureSlot (CreateGLTexture (some img) textureID tag regs).2 tag = -1 ∧
      FindTextureID (CreateGLTexture (some img) textureID tag regs).2 tag = -1) := by
  have hch : ¬(img.colorChannels = 3 ∨ img.colorChannels = 4) := by
    intro hc
    rcases hc with hc | hc
    · exact h3 hc
    · exact h4 hc
  simp only [CreateGLTexture, if_neg hch]
  exact ⟨trivial, trivial, fun h =>
    ⟨FindTextureSlotAux_not_found regs tag h 0, FindTextureID_not_found regs tag h⟩⟩

theorem createGLTexture_bad_channel_count_witness :
    ((Image.mk 64 64 2).colorChannels ≠ 3) ∧
    ((Image.mk 64 64 2).colorChannels ≠ 4) ∧
    ((CreateGLTexture (some (Image.mk 64 64 2)) 9 "wall" [TEXTURE_INFO.mk 5 "monitor"]).1 = false ∧
     (CreateGLTexture (some (Image.mk 64 64 2)) 9 "wall" [TEXTURE_INFO.mk 5 "monitor"]).2 =
       [TEXTURE_INFO.mk 5 "monitor"] ∧
     ((∀ e ∈ [TEXTURE_INFO.mk 5 "monitor"], e.tag ≠ "wall") →
       FindTextureSlot (CreateGLTexture (some (Image.mk 64 64 2)) 9 "wall"
         [TEXTURE_INFO.mk 5 "monitor"]).2 "wall" = -1 ∧
       FindTextureID (CreateGLTexture (some (Image.mk 64 64 2)) 9 "wall"
         [TEXTURE_INFO.mk 5 "monitor"]).2 "wall" = -1)) :=
  ⟨by decide, by decide,
   createGLTexture_bad_channel_count _ _ _ _ (by decide) (by decide)⟩

/-- Claim C2: the release path, evaluated on a registry holding the single
handle 7: DestroyGLTextures issues only glGenTextures (one call per
entry), never glDeleteTextures, and overwrites the stored handle with the
freshly generated name (here 42) — so the held GPU handle is regenerated,
not freed, contradicting the release contract. -/
theorem destroyGLTextures_regenerates_handles :
    (DestroyGLTextures (fun _ => 42) [TEXTURE_INFO.mk 7 "wall"]).1 = [GLCmd.genTextures 1] ∧
    (∀ c ∈ (DestroyGLTextures (fun _ => 42) [TEXTURE_INFO.mk 7 "wall"]).1,
      ∀ ids, c ≠ GLCmd.deleteTextures ids) ∧
    (DestroyGLTextures (fun _ => 42) [TEXTURE_INFO.mk 7 "wall"]).2 =
      [TEXTURE_INFO.mk 42 "wall"] := by
  have h1 : (DestroyGLTextures (fun _ => 42) [TEXTURE_INFO.mk 7 "wall"]).1 =
      [GLCmd.genTextures 1] := rfl
  refine ⟨h1, ?_, rfl⟩
  intro c hc ids
  rw [h1] at hc
  simp only [List.mem_singleton] at hc
  subst hc
  simp

theorem FindTextureSlotAux_cons (a : TEXTURE_INFO) (l : List TEXTURE_INFO)
    (tag : String) (k : Nat) :
    FindTextureSlotAux (a :: l) tag k =
      if a.tag = tag then (k : Int) else FindTextureSlotAux l tag (k + 1) := rfl

theorem FindTextureID_cons (a : TEXTURE_INFO) (l : List TEXTURE_INFO) (tag : String) :
    FindTextureID (a :: l) tag =
      if a.tag = tag then glUintToInt a.ID else FindTextureID l tag := rfl

theorem findTexture_cases (regs : List TEXTURE_INFO) (tag : String) :
    ∀ k, (FindTextureSlotAux regs tag k = -1 ∧ FindTextureID regs tag = -1) ∨
      (∃ j : Fin regs.length, (regs.get j).tag = tag ∧
        FindTextureSlotAux regs tag k = ((k + j.val : Nat) : Int) ∧
        FindTextureID regs tag = glUintToInt (regs.get j).ID) := by
  induction regs with
  | nil => intro k; exact Or.inl ⟨rfl, rfl⟩
  | cons e rest ih =>
      intro k
      by_cases he : e.tag = tag
      · refine Or.inr ⟨⟨0, by simp⟩, he, ?_, ?_⟩
        · rw [FindTextureSlotAux_cons, if_pos he]
          simp
        · rw [FindTextureID_cons, if_pos he]
          rfl
      · rcases ih (k + 1) with ⟨h1, h2⟩ | ⟨j, hj1, hj2, hj3⟩
        · refine Or.inl ⟨?_, ?_⟩
          · rw [FindTextureSlotAux_cons, if_neg he]
            exact h1
          · rw [FindTextureID_cons, if_neg he]
            exact h2
        · refine Or.inr ⟨⟨j.val + 1, by simp⟩, ?_, ?_, ?_⟩
          · exact hj1
          · rw [FindTextureSlotAux_cons, if_neg he, hj2]
            show ((k + 1 + j.val : Nat) : Int) = ((k + (j.val + 1) : Nat) : Int)
            congr 1
            omega
          · rw [FindTextureID_cons, if_neg he]
            exact hj3

/-- Claim C10 (amended): for every registry whose stored handles are
representable as a C int (< 2^31), FindTextureSlot returns -1 exactly
when FindTextureID returns -1, and when both succeed FindTextureID
returns the handle stored at the index FindTextureSlot returned — the
two scans select the same first matching entry. -/
theorem findTextureSlot_findTextureID_agree (regs : List TEXTURE_INFO)
    (tag : String) (hID : ∀ e ∈ regs, e.ID < 2147483648) :
    ((FindTextureSlot regs tag = -1) ↔ (FindTextureID regs tag = -1)) ∧
    (∀ i : Nat, ∀ hi : i < regs.length, FindTextureSlot regs tag = (i : Int) →
      FindTextureID regs tag = ((regs.get ⟨i, hi⟩).ID : Int)) := by
  rcases findTexture_cases regs tag 0 with ⟨h1, h2⟩ | ⟨j, hj1, hj2, hj3⟩
  · have hs : FindTextureSlot regs tag = -1 := h1
    constructor
    · rw [hs, h2]
    · intro i hi h
      rw [hs] at h
      omega
  · have hmem : regs.get j ∈ regs := by
      have h0 := List.get_mem regs j.val j.isLt
      exact h0
    have hg : glUintToInt (regs.get j).ID = (((regs.get j).ID : Nat) : Int) :=
      glUintToInt_small _ (hID _ hmem)
    have hs : FindTextureSlot regs tag = ((j.val : Nat) : Int) := by
      have h0 : FindTextureSlot regs tag = ((0 + j.val : Nat) : Int) := hj2
      simpa using h0
    constructor
    · constructor
      · intro h
        rw [hs] at h
        omega
      · intro h
        rw [hj3, hg] at h
        omega
    · intro i hi h
      rw [hs] at h
      have hij : i = j.val := by omega
      subst hij
      rw [hj3, hg]

theorem findTextureSlot_findTextureID_agree_witness :
    (∀ e ∈ [TEXTURE_INFO.mk 5 "monitor", TEXTURE_INFO.mk 9 "table"],
      e.ID < 2147483648) ∧
    ((FindTextureSlot [TEXTURE_INFO.mk 5 "monitor", TEXTURE_INFO.mk 9 "table"] "table" = -1) ↔
      (FindTextureID [TEXTURE_INFO.mk 5 "monitor", TEXTURE_INFO.mk 9 "table"] "table" = -1)) ∧
    (∀ i : Nat,
      ∀ hi : i < [TEXTURE_INFO.mk 5 "monitor", TEXTURE_INFO.mk 9 "table"].length,
      FindTextureSlot [TEXTURE_INFO.mk 5 "monitor", TEXTURE_INFO.mk 9 "table"] "table" = (i : Int) →
      FindTextureID [TEXTURE_INFO.mk 5 "monitor", TEXTURE_INFO.mk 9 "table"] "table" =
        (([TEXTURE_INFO.mk 5 "monitor", TEXTURE_INFO.mk 9 "table"].get ⟨i, hi⟩).ID : Int)) :=
  ⟨by decide, findTextureSlot_findTextureID_agree _ _ (by decide)⟩

/-- Claim C10 counterexample: a registry holding the GLuint handle
4294967295 under tag "wall".  The slot scan hits and returns 0, but the
ID scan assigns that handle to the int result, where it converts to -1
and aliases the sentinel: the two -1 results do not coincide, and the
returned ID is not the stored handle at slot 0. -/
theorem findTexture_sentinel_alias_counterexample :
    FindTextureSlot [TEXTURE_INFO.mk 4294967295 "wall"] "wall" = 0 ∧
    FindTextureID [TEXTURE_INFO.mk 4294967295 "wall"] "wall" = -1 ∧
    ¬((FindTextureSlot [TEXTURE_INFO.mk 4294967295 "wall"] "wall" = -1) ↔
      (FindTextureID [TEXTURE_INFO.mk 4294967295 "wall"] "wall" = -1)) ∧
    FindTextureID [TEXTURE_INFO.mk 4294967295 "wall"] "wall" ≠
      ((TEXTURE_INFO.mk 4294967295 "wall").ID : Int) := by
  decide

theorem FindTextureSlotAux_append_fresh (pre : List TEXTURE_INFO)
    (e : TEXTURE_INFO) (post : List TEXTURE_INFO)
    (hfresh : ∀ x ∈ pre, x.tag ≠ e.tag) :
    ∀ k, FindTextureSlotAux (pre ++ e :: post) e.tag k = ((k + pre.length : Nat) : Int) := by
  induction pre with
  | nil =>
      intro k
      rw [List.nil_append, FindTextureSlotAux_cons, if_pos rfl]
      simp
  | cons a rest ih =>
      intro k
      have ha : a.tag ≠ e.tag := hfresh a (List.mem_cons_self a rest)
      rw [List.cons_append, FindTextureSlotAux_cons, if_neg ha,
        ih (fun x hx => hfresh x (List.mem_cons_of_mem a hx)) (k + 1)]
      congr 1
      simp
      omega

/-- Claim C4 (amended): when CreateGLTexture succeeds for a tag distinct
from every previously registered tag, FindTextureSlot on that tag returns
the 0-based registration order (the pre-registration count), no matter
what is registered afterwards; and that slot lies in [0,16) whenever the
final registry holds at most 16 textures. -/
theorem registered_fresh_tag_slot (regs : List TEXTURE_INFO) (img : Image)
    (textureID : Nat) (tag : String) (post : List TEXTURE_INFO)
    (hsucc : (CreateGLTexture (some img) textureID tag regs).1 = true)
    (hfresh : ∀ e ∈ regs, e.tag ≠ tag) :
    FindTextureSlot ((CreateGLTexture (some img) textureID tag regs).2 ++ post) tag
      = (regs.length : Int) ∧
    (((CreateGLTexture (some img) textureID tag regs).2 ++ post).length ≤ 16 →
      (0 : Int) ≤ (regs.length : Int) ∧ (regs.length : Int) < 16) := by
  by_cases hch : img.colorChannels = 3 ∨ img.colorChannels = 4
  · have h2 : (CreateGLTexture (some img) textureID tag regs).2 =
        regs ++ [⟨textureID, tag⟩] := by
      simp [CreateGLTexture, hch]
    rw [h2]
    constructor
    · rw [List.append_assoc, List.singleton_append]
      have h0 := FindTextureSlotAux_append_fresh regs ⟨textureID, tag⟩ post hfresh 0
      simpa [FindTextureSlot] using h0
    · intro hlen
      simp only [List.length_append, List.length_singleton] at hlen
      omega
  · simp only [CreateGLTexture, if_neg hch] at hsucc
    exact absurd hsucc (by simp)

theorem registered_fresh_tag_slot_witness :
    (CreateGLTexture (some img3) 2 "wall" [TEXTURE_INFO.mk 1 "monitor"]).1 = true ∧
    (∀ e ∈ [TEXTURE_INFO.mk 1 "monitor"], e.tag ≠ "wall") ∧
    (FindTextureSlot ((CreateGLTexture (some img3) 2 "wall"
        [TEXTURE_INFO.mk 1 "monitor"]).2 ++ []) "wall"
      = ([TEXTURE_INFO.mk 1 "monitor"].length : Int) ∧
    (((CreateGLTexture (some img3) 2 "wall" [TEXTURE_INFO.mk 1 "monitor"]).2 ++ []).length ≤ 16 →
      (0 : Int) ≤ ([TEXTURE_INFO.mk 1 "monitor"].length : Int) ∧
      ([TEXTURE_INFO.mk 1 "monitor"].length : Int) < 16)) :=
  ⟨by decide, by decide,
   registered_fresh_tag_slot _ img3 2 "wall" [] (by decide) (by decide)⟩

/-- Claim C4 counterexample: both registrations of tag "a" return true,
so the second texture was successfully registered with registration
order 1, yet FindTextureSlot on its tag returns 0, not 1 (first-match
shadowing). -/
theorem duplicate_tag_slot_counterexample :
    (CreateGLTexture (some img3) 6 "a" (CreateGLTexture (some img3) 5 "a" []).2).1 = true ∧
    FindTextureSlot
      (CreateGLTexture (some img3) 6 "a" (CreateGLTexture (some img3) 5 "a" []).2).2 "a" = 0 ∧
    FindTextureSlot
      (CreateGLTexture (some img3) 6 "a" (CreateGLTexture (some img3) 5 "a" []).2).2 "a" ≠ 1 := by
  decide

theorem activeUnits_BindGLTexturesAux (regs : List TEXTURE_INFO) :
    ∀ k, activeUnits (BindGLTexturesAux regs k) = List.range' k regs.length := by
  induction regs with
  | nil => intro k; rfl
  | cons e rest ih =>
      intro k
      show activeUnits (GLCmd.activeTexture k :: GLCmd.bindTexture2D e.ID ::
        BindGLTexturesAux rest (k + 1)) = List.range' k (rest.length + 1)
      rw [List.range'_succ]
      simp only [activeUnits, List.filterMap_cons]
      exact congrArg (k :: ·) (ih (k + 1))

/-- Claim C3 (amended): BindGLTextures activates exactly one texture unit
per live registry entry — the units 0..n-1 for n registered textures, in
order — and therefore binds at most 16 units whenever at most 16 textures
have been registered.  The loop itself imposes no cap. -/
theorem bindGLTextures_one_unit_per_entry (regs : List TEXTURE_INFO) :
    activeUnits (BindGLTextures regs) = List.range regs.length ∧
    (regs.length ≤ 16 → (activeUnits (BindGLTextures regs)).length ≤ 16) := by
  have h : activeUnits (BindGLTextures regs) = List.range' 0 regs.length :=
    activeUnits_BindGLTexturesAux regs 0
  constructor
  · rw [h, List.range_eq_range']
  · intro hle
    rw [h, List.length_range']
    exact hle

theorem bindGLTextures_one_unit_per_entry_witness :
    activeUnits (BindGLTextures [TEXTURE_INFO.mk 5 "wall"]) = List.range 1 ∧
    (activeUnits (BindGLTextures [TEXTURE_INFO.mk 5 "wall"])).length ≤ 16 :=
  ⟨(bindGLTextures_one_unit_per_entry [TEXTURE_INFO.mk 5 "wall"]).1,
   (bindGLTextures_one_unit_per_entry [TEXTURE_INFO.mk 5 "wall"]).2 (by decide)⟩

/-- Claim C3 counterexample: after seventeen successful registrations
(nothing in CreateGLTexture checks the 16-slot cap) the bind loop
activates seventeen texture units, 0..16 — more than 16. -/
theorem bindGLTextures_seventeen_counterexample :
    regs17.length = 17 ∧
    (activeUnits (BindGLTextures regs17)).length = 17 ∧
    ¬((activeUnits (BindGLTextures regs17)).length ≤ 16) := by
  decide

/-- Claim C1: the source violates the claim — with the seed catalog
(plastic, wood, glass) and the unknown tag "metal", no entry matches,
yet FindMaterial returns true (its final return is the constant true,
not the loop's found flag, whenever the catalog is nonempty), so
SetShaderMaterial pushes the five material uniforms populated from the
default-initialized local, instead of pushing nothing.  The output
parameter itself is indeed left unmodified. -/
theorem setShaderMaterial_miss_pushes_uniforms :
    (∀ m ∈ seedState.m_objectMaterials, m.tag ≠ "metal") ∧
    (FindMaterial seedState.m_objectMaterials "metal" uninitMaterial).1 = true ∧
    (FindMaterial seedState.m_objectMaterials "metal" uninitMaterial).2 = uninitMaterial ∧
    ((SetShaderMaterial seedState "metal").2).length = 5 := by
  refine ⟨?_, rfl, rfl, rfl⟩
  intro m hm
  have hcases : m = plasticMaterial ∨ m = woodMaterial ∨ m = glassMaterial := by
    simpa [seedState, DefineObjectMaterials] using hm
  rcases hcases with h | h | h <;> subst h <;> decide

theorem Mat4.identity_mul (A : Mat4) : Mat4.identity * A = A := by
  cases A
  simp [Mat4.mul_def, Mat4.mul, Mat4.identity]

theorem Mat4.mul_identity (A : Mat4) : A * Mat4.identity = A := by
  cases A
  simp [Mat4.mul_def, Mat4.mul, Mat4.identity]

theorem glm_normalize_unitX : glm_normalize ⟨1, 0, 0⟩ = ⟨1, 0, 0⟩ := by
  simp [glm_normalize]

theorem glm_normalize_unitY : glm_normalize ⟨0, 1, 0⟩ = ⟨0, 1, 0⟩ := by
  simp [glm_normalize]

theorem glm_normalize_unitZ : glm_normalize ⟨0, 0, 1⟩ = ⟨0, 0, 1⟩ := by
  simp [glm_normalize]

theorem glm_rotate_unitX (t : ℝ) : glm_rotate t ⟨1, 0, 0⟩ = specRotationX t := by
  simp only [glm_rotate, glm_normalize_unitX, specRotationX, Mat4.mk.injEq]
  norm_num

theorem glm_rotate_unitY (t : ℝ) : glm_rotate t ⟨0, 1, 0⟩ = specRotationY t := by
  simp only [glm_rotate, glm_normalize_unitY, specRotationY, Mat4.mk.injEq]
  norm_num

theorem glm_rotate_unitZ (t : ℝ) : glm_rotate t ⟨0, 0, 1⟩ = specRotationZ t := by
  simp only [glm_rotate, glm_normalize_unitZ, specRotationZ, Mat4.mk.injEq]
  norm_num

theorem glm_scale_spec (v : Vec3) : glm_scale v = specScale v.x v.y v.z := rfl

theorem glm_translate_spec (v : Vec3) : glm_translate v = specTranslation v.x v.y v.z := rfl

/-- Claim C5: SetTransformations converts each rotation component from
degrees to radians (multiplication by pi/180), builds the individual
scale, per-axis rotation and translation matrices, and — when the shader
manager is present — submits exactly the product
translation * rotationX * rotationY * rotationZ * scale as the "model"
uniform, where the per-axis rotations agree with the standard rotation
matrices about x, y and z. -/
theorem setTransformations_model_matrix (s : SceneState) (scaleXYZ : Vec3)
    (XrotationDegrees YrotationDegrees ZrotationDegrees : ℝ) (positionXYZ : Vec3)
    (hs : s.hasShader = true) :
    (SetTransformations s scaleXYZ XrotationDegrees YrotationDegrees
        ZrotationDegrees positionXYZ).2 =
      [Cmd.setMat4 g_ModelName
        (specTranslation positionXYZ.x positionXYZ.y positionXYZ.z *
          specRotationX (XrotationDegrees * (Real.pi / 180)) *
          specRotationY (YrotationDegrees * (Real.pi / 180)) *
          specRotationZ (ZrotationDegrees * (Real.pi / 180)) *
          specScale scaleXYZ.x scaleXYZ.y scaleXYZ.z)] := by
  simp only [SetTransformations, hs, if_true]
  simp only [composeModel, glm_radians, glm_rotate_unitX, glm_rotate_unitY,
    glm_rotate_unitZ, glm_scale_spec, glm_translate_spec]

theorem setTransformations_model_matrix_witness :
    (SceneState.mk [] [] true).hasShader = true ∧
    (SetTransformations (SceneState.mk [] [] true) ⟨1, 1, 1⟩ 2 3 4 ⟨5, 6, 7⟩).2 =
      [Cmd.setMat4 g_ModelName
        (specTranslation 5 6 7 *
          specRotationX (2 * (Real.pi / 180)) *
          specRotationY (3 * (Real.pi / 180)) *
          specRotationZ (4 * (Real.pi / 180)) *
          specScale 1 1 1)] :=
  ⟨rfl, setTransformations_model_matrix _ _ _ _ _ _ rfl⟩

theorem glm_radians_zero : glm_radians 0 = 0 := by
  simp [glm_radians]

theorem specRotationX_zero : specRotationX 0 = Mat4.identity := by
  simp [specRotationX, Mat4.identity]

theorem specRotationY_zero : specRotationY 0 = Mat4.identity := by
  simp [specRotationY, Mat4.identity]

theorem specRotationZ_zero : specRotationZ 0 = Mat4.identity := by
  simp [specRotationZ, Mat4.identity]

theorem glm_scale_one : glm_scale ⟨1, 1, 1⟩ = Mat4.identity := rfl

theorem glm_translate_zero : glm_translate ⟨0, 0, 0⟩ = Mat4.identity := rfl

/-- Claim C6: composing with unit scale, zero rotation and zero
translation yields the 4x4 identity matrix, and composing with unit
scale, zero rotation and translation (tx, ty, tz) yields the pure
translation matrix with those offsets and no shear. -/
theorem composeModel_identity_and_translation :
    composeModel ⟨1, 1, 1⟩ 0 0 0 ⟨0, 0, 0⟩ = Mat4.identity ∧
    ∀ tx ty tz : ℝ,
      composeModel ⟨1, 1, 1⟩ 0 0 0 ⟨tx, ty, tz⟩ = specTranslation tx ty tz := by
  have hX : glm_rotate (glm_radians 0) ⟨1, 0, 0⟩ = Mat4.identity := by
    rw [glm_radians_zero, glm_rotate_unitX, specRotationX_zero]
  have hY : glm_rotate (glm_radians 0) ⟨0, 1, 0⟩ = Mat4.identity := by
    rw [glm_radians_zero, glm_rotate_unitY, specRotationY_zero]
  have hZ : glm_rotate (glm_radians 0) ⟨0, 0, 1⟩ = Mat4.identity := by
    rw [glm_radians_zero, glm_rotate_unitZ, specRotationZ_zero]
  constructor
  · simp only [composeModel]
    rw [hX, hY, hZ, glm_scale_one, glm_translate_zero]
    rw [Mat4.identity_mul, Mat4.identity_mul, Mat4.identity_mul, Mat4.identity_mul]
  · intro tx ty tz
    simp only [composeModel]
    rw [hX, hY, hZ, glm_scale_one]
    rw [Mat4.mul_identity, Mat4.mul_identity, Mat4.mul_identity, Mat4.mul_identity]
    exact glm_translate_spec ⟨tx, ty, tz⟩

/-- Claim C9: the fixed scene-construction sequence reads the registry and
catalog state but never writes it, so executing RenderScene twice from
the same state emits the identical, in-order command sequence (transforms,
shader state and draws) on both frames. -/
theorem renderScene_deterministic (s : SceneState) :
    (RenderScene s).1 = s ∧
    (RenderScene ((RenderScene s).1)).2 = (RenderScene s).2 := by
  have h : (RenderScene s).1 = s := rfl
  exact ⟨h, by rw [h]⟩

end SceneManager
